import Mathlib

/-!
Verification of the storage and ownership layer of the better_option
library: the Option and Result value containers and their storage
specializations (generic inline-slot storage, reference storage, and
empty-payload storage), shallowly embedded as Lean state structures with
the source operations translated into pure functions.

Conventions of the embedding:
- the inline slot of a storage is an Option value: some v means a live
  payload v was placement-constructed there; none means no live payload;
- a read of a dead slot in C++ yields an unspecified value; the embedding
  returns the Inhabited default in that case;
- throwing operations return Except String carrying the source message;
- a pair returned by a mutating member models (new state of this, result).
-/

namespace Better

/-- State of the generic OptionStorage of the include set
(src/include/storage, generic template): a RawStorage slot plus the
boolean flag member named initialized in the source. -/
structure OptionSt (α : Type) where
  slot : Option α
  initialized : Bool
deriving DecidableEq, Repr

/-- The source invariant of the generic representation: the flag is true
exactly when the slot holds a live payload. -/
def OptionSt.WF {α : Type} (o : OptionSt α) : Prop :=
  o.initialized = o.slot.isSome

instance {α : Type} [DecidableEq α] (o : OptionSt α) : Decidable o.WF := by
  unfold OptionSt.WF; infer_instance

/-- OptionStorage(NoneTag): flag false, slot untouched (no live payload). -/
def OptionSt.mkNone {α : Type} : OptionSt α := ⟨none, false⟩

/-- OptionStorage(SomeTag, args...): placement-constructs the payload and
sets the flag. The payload value constructed from args is passed in
directly. -/
def OptionSt.mkSome {α : Type} (v : α) : OptionSt α := ⟨some v, true⟩

/-- is_some of the generic storage: returns the initialized flag. -/
def OptionSt.is_some {α : Type} (o : OptionSt α) : Bool := o.initialized

/-- unwrap_unsafe: dereferences get_raw on the slot with no check. On a
dead slot this is an unspecified-value read, modeled by default. -/
def OptionSt.unwrapUnsafe {α : Type} [Inhabited α] (o : OptionSt α) : α :=
  o.slot.getD default

/-- The logically observable contents of a storage: the payload when the
flag says a live payload is present, nothing otherwise. -/
def OptionSt.content {α : Type} (o : OptionSt α) : Option α :=
  if o.initialized then o.slot else none

/-- OptionStorage swap, non-trivially-movable path of the source: four
cases on the two initialized flags. Both present: std swap of the
payloads. One present: placement-move-construct into the dead side, then
reset the donor (destroying its payload and clearing its flag). Both
absent: do nothing. Arguments are (this, other); returns their new
states in the same order. -/
def OptionSt.swapStorage {α : Type} (a b : OptionSt α) :
    OptionSt α × OptionSt α :=
  if b.initialized && a.initialized then
    (⟨b.slot, a.initialized⟩, ⟨a.slot, b.initialized⟩)
  else if b.initialized then
    (⟨b.slot, true⟩, ⟨none, false⟩)
  else if a.initialized then
    (⟨none, false⟩, ⟨a.slot, true⟩)
  else
    (a, b)

/-- OptionStorage swap, trivially-movable short-circuit of the source:
std swap of the raw storage bytes and of the two flags, a full
bitwise exchange. -/
def OptionSt.swapTrivial {α : Type} (a b : OptionSt α) :
    OptionSt α × OptionSt α :=
  (⟨b.slot, b.initialized⟩, ⟨a.slot, a.initialized⟩)

/-- Option take of the value type: constructs a fresh absent container,
swaps this into it, and returns it; yields (new this, returned). -/
def OptionSt.take {α : Type} (o : OptionSt α) : OptionSt α × OptionSt α :=
  OptionSt.swapStorage o OptionSt.mkNone

/-- OptionStorage take, trivially-movable branch of the single-header
version: memcpy the whole storage (slot bytes and flag) into the result,
then reset this (flag cleared, slot bytes left in place). -/
def OptionSt.takeTrivial {α : Type} (o : OptionSt α) :
    OptionSt α × OptionSt α :=
  (⟨o.slot, false⟩, ⟨o.slot, o.initialized⟩)

/-- OptionStorage take, general branch of the single-header version: if
not initialized return an absent storage and leave this alone; otherwise
move-construct the payload into the result and reset this. -/
def OptionSt.takeGeneral {α : Type} [Inhabited α] (o : OptionSt α) :
    OptionSt α × OptionSt α :=
  if !o.initialized then
    (o, OptionSt.mkNone)
  else
    (⟨none, false⟩, ⟨some o.unwrapUnsafe, true⟩)

/-- Option insert of the value type: first constructs a fresh present
container from args (the payload constructor may throw, which is the
error case of the argument), then swaps it into this and returns it.
Result: (new state of this, either the propagated failure or the
returned previous contents). When construction fails, this was never
touched. -/
def OptionSt.insertE {α ε : Type} (o : OptionSt α) (ctor : Except ε α) :
    OptionSt α × Except ε (OptionSt α) :=
  match ctor with
  | .error e => (o, .error e)
  | .ok v =>
    let p := OptionSt.swapStorage o (OptionSt.mkSome v)
    (p.1, .ok p.2)

/-- Checked unwrap of the Option value type: the payload when present,
otherwise a runtime error with the source message. -/
def OptionSt.unwrap {α : Type} [Inhabited α] (o : OptionSt α) :
    Except String α :=
  if o.is_some then .ok o.unwrapUnsafe
  else .error "attempt to unwrap None"

/-- Comparison of bool values as the C++ built-in less-than on bool:
false is less than true. -/
def boolLt (x y : Bool) : Bool := !x && y

/-- Three-way comparison of the Option value type, translated verbatim
from the source: both presence flags are read from this (the source
initializes right_is_some from this and never reads the presence of
other), then both payloads are compared when the flags say present. -/
def OptionSt.spaceship {α : Type} [Inhabited α] (o other : OptionSt α)
    (cmp : α → α → Ordering) : Ordering :=
  let left_is_some := o.is_some
  let right_is_some := o.is_some
  if boolLt left_is_some right_is_some then .lt
  else if boolLt right_is_some left_is_some then .gt
  else if !left_is_some then .eq
  else cmp o.unwrapUnsafe other.unwrapUnsafe

/-- Three-way comparison as the specification describes it: each
operand's own presence flag, absent below present, payload comparison
when both present, equivalent when both absent. Written from the spec
for comparison with the source translation. -/
def OptionSt.spaceshipSpec {α : Type} [Inhabited α] (o other : OptionSt α)
    (cmp : α → α → Ordering) : Ordering :=
  let left_is_some := o.is_some
  let right_is_some := other.is_some
  if boolLt left_is_some right_is_some then .lt
  else if boolLt right_is_some left_is_some then .gt
  else if !left_is_some then .eq
  else cmp o.unwrapUnsafe other.unwrapUnsafe

/-- The const-qualified map of the include-set Option value type: a
const member that, when present, applies the function to a const view of
the payload and wraps the result in a new present Option, and otherwise
produces an absent Option; this is read-only, so the pair carries the
unchanged state of this alongside the result. -/
def OptionSt.mapConst {α β : Type} [Inhabited α] (o : OptionSt α)
    (f : α → β) : OptionSt α × OptionSt β :=
  (o, if o.is_some then OptionSt.mkSome (f o.unwrapUnsafe)
      else OptionSt.mkNone)

/-- The const-qualified unwrap_or of the Option value type: payload from
a const view when present, the default value otherwise; this is
read-only, so its unchanged state is carried alongside. -/
def OptionSt.unwrapOrConst {α : Type} [Inhabited α] (o : OptionSt α)
    (d : α) : OptionSt α × α :=
  (o, if o.is_some then o.unwrapUnsafe else d)

/-- The const-qualified or_else of the Option value type: builds a copy
of this (copy constructor duplicates the payload exactly when present)
and runs the consuming or_else on the copy, which passes the copy
through when present and otherwise invokes the fallback closure. -/
def OptionSt.orElseConst {α : Type} (o : OptionSt α)
    (f : Unit → OptionSt α) : OptionSt α × OptionSt α :=
  (o, if o.is_some then o else f ())

/-- State of the empty-trivial-payload OptionStorage specialization
(including the Void marker): a single presence flag, the zero-size
payload folded away by empty-base composition. -/
structure EmptySt where
  is_some : Bool
deriving DecidableEq, Repr

/-- Swap of the empty-payload specialization: std swap of the two flags
only. -/
def EmptySt.swapEmpty (a b : EmptySt) : EmptySt × EmptySt :=
  (⟨b.is_some⟩, ⟨a.is_some⟩)

/-- Move constructor of the empty-payload specialization: initializes
the new flag by std exchange, leaving the source flag false. Returns
(new object, moved-from source). -/
def EmptySt.moveCtor (s : EmptySt) : EmptySt × EmptySt :=
  (⟨s.is_some⟩, ⟨false⟩)

/-- State of the reference-payload OptionStorage specialization: one
union of a Ref and a raw pointer, absence encoded as the null address.
The abstract address stored is a value of α; none models null. -/
structure RefSt (α : Type) where
  ptr : Option α
deriving DecidableEq, Repr

/-- is_some of the reference specialization: the address is not null. -/
def RefSt.is_some {α : Type} (s : RefSt α) : Bool := s.ptr.isSome

/-- Swap of the reference specialization: std swap of the two unions. -/
def RefSt.swapRef {α : Type} (a b : RefSt α) : RefSt α × RefSt α :=
  (⟨b.ptr⟩, ⟨a.ptr⟩)

/-- Move constructor of the reference specialization of the include set:
the source declares no move constructor, so the implicitly-defaulted one
copies the pointer union and leaves the source untouched. Returns
(new object, moved-from source). -/
def RefSt.moveCtor {α : Type} (s : RefSt α) : RefSt α × RefSt α :=
  (⟨s.ptr⟩, ⟨s.ptr⟩)

/-- Move constructor of the generic OptionStorage for a
trivially-move-constructible payload in the include set: defaulted, a
flat copy of slot bytes and flag that leaves the source untouched.
Returns (new object, moved-from source). -/
def OptionSt.moveCtorTrivial {α : Type} (s : OptionSt α) :
    OptionSt α × OptionSt α :=
  (⟨s.slot, s.initialized⟩, ⟨s.slot, s.initialized⟩)

/-- State of the generic two-slot ResultStorage: the inherited
OptionStorage of the success payload (its slot and its initialized flag,
which doubles as the ok flag) plus the raw error slot. -/
structure ResultSt (α β : Type) where
  t_slot : Option α
  t_init : Bool
  e_slot : Option β
deriving DecidableEq, Repr

/-- is_ok of ResultStorage: delegates to is_some of the success-side
OptionStorage, that is, to the flag. -/
def ResultSt.is_ok {α β : Type} (r : ResultSt α β) : Bool := r.t_init

/-- ResultStorage(OkTag, args...): constructs the success slot through
the present OptionStorage constructor; the error slot stays dead. -/
def ResultSt.ctorOk {α β : Type} (v : α) : ResultSt α β := ⟨some v, true, none⟩

/-- ResultStorage(ErrTag, args...): constructs the OptionStorage absent
and placement-constructs the error payload into the error slot. -/
def ResultSt.ctorErr {α β : Type} (e : β) : ResultSt α β := ⟨none, false, some e⟩

/-- Well-formed ResultStorage state: the flag agrees with the success
slot, and when the flag says ok the error slot is dead. -/
def ResultSt.WF {α β : Type} (r : ResultSt α β) : Prop :=
  r.t_init = r.t_slot.isSome ∧ (r.t_init = true → r.e_slot = none)

instance {α β : Type} [DecidableEq α] [DecidableEq β] (r : ResultSt α β) :
    Decidable r.WF := by
  unfold ResultSt.WF; infer_instance

/-- The two-slot result swap as its bodies intend: record both ok
flags, swap the success-side OptionStorage parts, then fix up the error
slots: when the flags agreed and both were err, std swap of the error
payloads; when they agreed on ok, nothing more; when they disagreed,
the error payload of the err side is placement-move-constructed into
the other side's dead error slot and the donor's error slot is
destroyed. The older Option-based Result swap of the value type
performs exactly this and is well-formed: it moves from the
dereferenced E pointer of its error slot, writing
std::move(*error_src->_error.get_raw()). The ResultStorage swap body
instead writes std::move(*error_src->unwrap_err_unsafe()), applying
the unary dereference to the E reference that unwrap_err_unsafe
returns, which is ill-formed for ordinary E the moment the disagree
branch is instantiated. This definition models the relocation both
bodies intend and the older one performs. -/
def ResultSt.swapIntended {α β : Type} (a b : ResultSt α β) :
    ResultSt α β × ResultSt α β :=
  let this_ok := a.is_ok
  let other_ok := b.is_ok
  let p := OptionSt.swapStorage ⟨a.t_slot, a.t_init⟩ ⟨b.t_slot, b.t_init⟩
  let a1 : ResultSt α β := ⟨p.1.slot, p.1.initialized, a.e_slot⟩
  let b1 : ResultSt α β := ⟨p.2.slot, p.2.initialized, b.e_slot⟩
  if this_ok == other_ok then
    if !this_ok then
      (⟨a1.t_slot, a1.t_init, b1.e_slot⟩, ⟨b1.t_slot, b1.t_init, a1.e_slot⟩)
    else
      (a1, b1)
  else if this_ok then
    (⟨a1.t_slot, a1.t_init, b1.e_slot⟩, ⟨b1.t_slot, b1.t_init, none⟩)
  else
    (⟨a1.t_slot, a1.t_init, none⟩, ⟨b1.t_slot, b1.t_init, a1.e_slot⟩)

/-- unwrap_unsafe of ResultStorage: unchecked read of the success slot;
a dead-slot read yields an unspecified value, modeled by default. -/
def ResultSt.unwrapUnsafe {α β : Type} [Inhabited α] (r : ResultSt α β) : α :=
  r.t_slot.getD default

/-- unwrap_err_unsafe of ResultStorage: unchecked read of the error
slot; a dead-slot read yields an unspecified value, modeled by
default. -/
def ResultSt.unwrapErrUnsafe {α β : Type} [Inhabited β] (r : ResultSt α β) : β :=
  r.e_slot.getD default

/-- Checked unwrap of the Result value type: the success payload when
ok-flagged, otherwise a runtime error with the source message. -/
def ResultSt.unwrap {α β : Type} [Inhabited α] (r : ResultSt α β) :
    Except String α :=
  if r.is_ok then .ok r.unwrapUnsafe
  else .error "Attempt to unwrap Result that contains Err"

/-- Checked unwrap_err of the Result value type: the error payload when
err-flagged, otherwise a runtime error with the source message. -/
def ResultSt.unwrapErr {α β : Type} [Inhabited β] (r : ResultSt α β) :
    Except String β :=
  if r.is_ok then .error "Attempt to unwrap_err Result that contains Ok"
  else .ok r.unwrapErrUnsafe

/-- State of the degenerate single-slot ResultStorage used when the
success and error types coincide: the one payload slot shared by both
variants (always constructed, by either tag constructor) plus the ok
flag. -/
structure ResultSameSt (α : Type) where
  value : α
  is_ok : Bool
deriving DecidableEq, Repr

/-- OkTag constructor of the collapsed storage: constructs the shared
slot from args and sets the flag. -/
def ResultSameSt.ctorOk {α : Type} (v : α) : ResultSameSt α := ⟨v, true⟩

/-- ErrTag constructor of the collapsed storage: constructs the shared
slot from args and clears the flag. -/
def ResultSameSt.ctorErr {α : Type} (v : α) : ResultSameSt α := ⟨v, false⟩

/-- Swap of the collapsed storage as the source body intends: std swap
of the two flags and std swap of the two inner values. The source text
writes the second argument of the value swap as other.as_inner without
the call parentheses, which is ill-formed when instantiated; this
definition models the call the surrounding code requires. -/
def ResultSameSt.swapIntended {α : Type} (a b : ResultSameSt α) :
    ResultSameSt α × ResultSameSt α :=
  (⟨b.value, b.is_ok⟩, ⟨a.value, a.is_ok⟩)

/-- Checked unwrap over the collapsed storage, through the same Result
value-type wrapper: the shared slot when ok-flagged, otherwise the
runtime error. -/
def ResultSameSt.unwrap {α : Type} (r : ResultSameSt α) : Except String α :=
  if r.is_ok then .ok r.value
  else .error "Attempt to unwrap Result that contains Err"

/-- Checked unwrap_err over the collapsed storage, through the same
Result value-type wrapper: the shared slot when err-flagged, otherwise
the runtime error. -/
def ResultSameSt.unwrapErr {α : Type} (r : ResultSameSt α) : Except String α :=
  if r.is_ok then .error "Attempt to unwrap_err Result that contains Ok"
  else .ok r.value

/-- Abstraction map from the collapsed single-slot storage to the
generic two-slot storage: the shared slot becomes the success slot when
ok-flagged and the error slot otherwise. -/
def ResultSameSt.abs {α : Type} (s : ResultSameSt α) : ResultSt α α :=
  if s.is_ok then ResultSt.ctorOk s.value else ResultSt.ctorErr s.value

/-- C1: insert fully constructs the replacement in a fresh container
before touching this, then swaps; afterwards this is present with the
payload built from args and the returned container is exactly the
previous contents, while a failing payload constructor propagates with
this left unchanged. -/
theorem insert_builds_replacement_then_swaps {α ε : Type} (o : OptionSt α)
    (h : o.WF) (ctor : Except ε α) :
    (∀ v, ctor = .ok v → o.insertE ctor = (OptionSt.mkSome v, .ok o)) ∧
    (∀ e, ctor = .error e → o.insertE ctor = (o, .error e)) := by
  constructor
  · rintro v rfl
    rcases o with ⟨slot, init⟩
    rcases slot with _ | w <;> cases init <;> simp [OptionSt.WF] at h <;>
      simp [OptionSt.insertE, OptionSt.swapStorage, OptionSt.mkSome,
        OptionSt.mkNone]
  · rintro e rfl
    simp [OptionSt.insertE]

/-- Witness for C1: inserting 2 into a present container holding 1
leaves the container present with 2 and returns the container that held
1. -/
theorem insert_builds_replacement_then_swaps_instance :
    (OptionSt.mkSome (1 : Nat)).insertE (Except.ok (ε := Unit) 2)
      = (OptionSt.mkSome 2, .ok (OptionSt.mkSome 1)) :=
  (insert_builds_replacement_then_swaps (OptionSt.mkSome 1) (by decide)
    (Except.ok 2)).1 2 rfl

/-- C2: the three-way comparison of the source reads the presence of
this twice, so comparing an absent container with a present one yields
equivalent where the specification requires less; the spec-faithful
comparison on the same input yields less. -/
theorem spaceship_presence_bug :
    OptionSt.spaceship (OptionSt.mkNone : OptionSt Nat) (OptionSt.mkSome 0)
        compare = Ordering.eq ∧
    OptionSt.spaceshipSpec (OptionSt.mkNone : OptionSt Nat) (OptionSt.mkSome 0)
        compare = Ordering.lt := by
  constructor <;> rfl

/-- C3: the result swap both source bodies intend, and that the
well-formed Option-based Result swap performs verbatim, exchanges
contents in every flag combination: swapping an ok with an err
relocates the live payload of each side into the other side's dead
slot of the matching kind and destroys the donor slot, and agreeing
sides swap their matching payloads in place; the ResultStorage body
itself is ill-formed at the disagree branch, so the current
storage-based Result cannot perform this swap at all. -/
theorem result_swap_exchanges {α β : Type} (v v' : α) (e e' : β) :
    ResultSt.swapIntended (ResultSt.ctorOk v) (ResultSt.ctorErr e)
      = (ResultSt.ctorErr e, ResultSt.ctorOk v) ∧
    ResultSt.swapIntended (ResultSt.ctorErr e) (ResultSt.ctorOk v)
      = (ResultSt.ctorOk v, ResultSt.ctorErr e) ∧
    ResultSt.swapIntended (ResultSt.ctorOk (β := β) v) (ResultSt.ctorOk v')
      = (ResultSt.ctorOk v', ResultSt.ctorOk v) ∧
    ResultSt.swapIntended (ResultSt.ctorErr (α := α) e) (ResultSt.ctorErr e')
      = (ResultSt.ctorErr e', ResultSt.ctorErr e) := by
  refine ⟨?_, ?_, ?_, ?_⟩ <;>
    simp [ResultSt.swapIntended, ResultSt.is_ok, OptionSt.swapStorage,
      ResultSt.ctorOk, ResultSt.ctorErr]

/-- C4: checked access raises exactly on the wrong state, with the
human-readable source messages, and otherwise returns the held
payload. -/
theorem unwrap_raises_exactly_on_wrong_state {α β : Type} [Inhabited α]
    [Inhabited β] (o : OptionSt α) (r : ResultSt α β) :
    (o.is_some = false → o.unwrap = .error "attempt to unwrap None") ∧
    (∀ v, o.slot = some v → o.is_some = true → o.unwrap = .ok v) ∧
    (r.is_ok = false →
      r.unwrap = .error "Attempt to unwrap Result that contains Err") ∧
    (∀ v, r.t_slot = some v → r.is_ok = true → r.unwrap = .ok v) ∧
    (r.is_ok = true →
      r.unwrapErr = .error "Attempt to unwrap_err Result that contains Ok") ∧
    (∀ e, r.e_slot = some e → r.is_ok = false → r.unwrapErr = .ok e) ∧
    ((∃ msg, o.unwrap = .error msg) ↔ o.is_some = false) ∧
    ((∃ msg, r.unwrap = .error msg) ↔ r.is_ok = false) ∧
    ((∃ msg, r.unwrapErr = .error msg) ↔ r.is_ok = true) := by
  refine ⟨?_, ?_, ?_, ?_, ?_, ?_, ?_, ?_, ?_⟩
  · intro h; simp [OptionSt.unwrap, h]
  · intro v hv h
    simp [OptionSt.unwrap, h, OptionSt.unwrapUnsafe, hv]
  · intro h; simp [ResultSt.unwrap, h]
  · intro v hv h
    simp [ResultSt.unwrap, h, ResultSt.unwrapUnsafe, hv]
  · intro h; simp [ResultSt.unwrapErr, h]
  · intro e he h
    simp [ResultSt.unwrapErr, h, ResultSt.unwrapErrUnsafe, he]
  · cases h : o.is_some <;> simp [OptionSt.unwrap, h]
  · cases h : r.is_ok <;> simp [ResultSt.unwrap, h]
  · cases h : r.is_ok <;> simp [ResultSt.unwrapErr, h]

/-- Witness for C4: unwrap of a present container returns its payload,
and unwrap of an err-result raises the err message. -/
theorem unwrap_raises_exactly_on_wrong_state_instance :
    (OptionSt.mkSome (3 : Nat)).unwrap = .ok 3 ∧
    (ResultSt.ctorErr (α := Nat) "boom").unwrap
      = .error "Attempt to unwrap Result that contains Err" :=
  ⟨(unwrap_raises_exactly_on_wrong_state (OptionSt.mkSome 3)
      (ResultSt.ctorErr (α := Nat) (β := String) "boom")).2.1 3 rfl rfl,
   (unwrap_raises_exactly_on_wrong_state (OptionSt.mkSome (3 : Nat))
      (ResultSt.ctorErr (α := Nat) "boom")).2.2.1 rfl⟩

/-- C5: take leaves the container absent and returns a container holding
exactly the previous contents, in the value-type implementation built on
swap and in both branches of the single-header storage take. -/
theorem take_leaves_absent_returns_previous {α : Type} [Inhabited α]
    (o : OptionSt α) (h : o.WF) :
    o.take = (OptionSt.mkNone, o) ∧
    (o.takeTrivial.1.is_some = false ∧ o.takeTrivial.2 = o) ∧
    o.takeGeneral = (OptionSt.mkNone, o) := by
  rcases o with ⟨slot, init⟩
  rcases slot with _ | v <;> cases init <;> simp [OptionSt.WF] at h <;>
    refine ⟨?_, ⟨rfl, rfl⟩, ?_⟩ <;>
    simp [OptionSt.take, OptionSt.swapStorage, OptionSt.takeGeneral,
      OptionSt.mkNone, OptionSt.unwrapUnsafe]

/-- Witness for C5: taking from a container holding 3 leaves it absent
and returns the container holding 3. -/
theorem take_leaves_absent_returns_previous_instance :
    (OptionSt.mkSome (3 : Nat)).take
      = (OptionSt.mkNone, OptionSt.mkSome 3) :=
  (take_leaves_absent_returns_previous (OptionSt.mkSome 3) (by decide)).1

/-- C6: performing swap twice restores both containers, for every
combination of present and absent states: exactly for the
trivially-movable short-circuit, the empty-payload specialization and
the reference specialization, and up to presence flag and observable
contents for the general placement-move path (whose dead slots carry no
observable payload). -/
theorem swap_twice_restores {α : Type} (a b : OptionSt α)
    (e1 e2 : EmptySt) (r1 r2 : RefSt α) :
    (let p := OptionSt.swapStorage a b
     let q := OptionSt.swapStorage p.1 p.2
     q.1.initialized = a.initialized ∧ q.1.content = a.content ∧
     q.2.initialized = b.initialized ∧ q.2.content = b.content) ∧
    (let p := OptionSt.swapTrivial a b
     OptionSt.swapTrivial p.1 p.2 = (a, b)) ∧
    (let p := EmptySt.swapEmpty e1 e2
     EmptySt.swapEmpty p.1 p.2 = (e1, e2)) ∧
    (let p := RefSt.swapRef r1 r2
     RefSt.swapRef p.1 p.2 = (r1, r2)) := by
  refine ⟨?_, rfl, rfl, rfl⟩
  rcases a with ⟨sa, ia⟩
  rcases b with ⟨sb, ib⟩
  cases ia <;> cases ib <;>
    simp [OptionSt.swapStorage, OptionSt.content]

/-- C7 counterexample: the reference-payload storage of the include set
declares no move constructor, so the defaulted one copies the pointer
union; move-constructing from a present reference storage leaves the
source still present. -/
theorem moved_from_ref_storage_stays_present :
    ((RefSt.moveCtor (⟨some 7⟩ : RefSt Nat)).2).is_some = true := rfl

/-- C7 amended: move construction transfers the previous contents into
the new object, but only the empty-payload specialization resets its
source to absent; for reference payloads and trivially-movable generic
payloads the defaulted move constructor is a flat copy that leaves the
source in its previous state, present if it was present. -/
theorem move_ctor_resets_only_empty_payload {α : Type} (s : EmptySt)
    (r : RefSt α) (o : OptionSt α) :
    EmptySt.moveCtor s = (s, ⟨false⟩) ∧
    RefSt.moveCtor r = (r, r) ∧
    OptionSt.moveCtorTrivial o = (o, o) := ⟨rfl, rfl, rfl⟩

/-- C8: the collapsed single-slot storage for equal success and error
types is observationally equivalent to the generic two-slot storage
through the abstraction that routes the shared slot by the flag:
constructors, the ok flag, checked unwrap and unwrap_err, and swap all
commute. Both swaps are taken as their bodies intend, each repair
declared on its definition: the collapsed body omits the call
parentheses on the second argument of its value swap, and the generic
body dereferences the E reference in its disagree branch, so neither
compiles as written. -/
theorem collapsed_storage_refines_generic {α : Type} [Inhabited α]
    (s t : ResultSameSt α) (v : α) :
    (ResultSameSt.ctorOk v).abs = ResultSt.ctorOk v ∧
    (ResultSameSt.ctorErr v).abs = ResultSt.ctorErr v ∧
    s.abs.is_ok = s.is_ok ∧
    s.unwrap = s.abs.unwrap ∧
    s.unwrapErr = s.abs.unwrapErr ∧
    (let p := ResultSameSt.swapIntended s t
     (p.1.abs, p.2.abs) = ResultSt.swapIntended s.abs t.abs) := by
  rcases s with ⟨sv, sok⟩
  rcases t with ⟨tv, tok⟩
  cases sok <;> cases tok <;>
    simp [ResultSameSt.abs, ResultSameSt.ctorOk, ResultSameSt.ctorErr,
      ResultSameSt.unwrap, ResultSameSt.unwrapErr, ResultSameSt.swapIntended,
      ResultSameSt.is_ok, ResultSt.ctorOk, ResultSt.ctorErr, ResultSt.unwrap,
      ResultSt.unwrapErr, ResultSt.is_ok, ResultSt.swapIntended,
      OptionSt.swapStorage, ResultSt.unwrapUnsafe, ResultSt.unwrapErrUnsafe]

/-- C10: the const-qualified non-consuming accessors compute their
result from a const view or copy of the payload and leave a present
container present with its payload unchanged. -/
theorem const_access_leaves_container_untouched {α β : Type} [Inhabited α]
    (o : OptionSt α) (v : α) (hv : o.slot = some v)
    (hsome : o.is_some = true) (f : α → β) (d : α)
    (g : Unit → OptionSt α) :
    OptionSt.mapConst o f = (o, OptionSt.mkSome (f v)) ∧
    OptionSt.unwrapOrConst o d = (o, v) ∧
    OptionSt.orElseConst o g = (o, o) := by
  refine ⟨?_, ?_, ?_⟩ <;>
    simp [OptionSt.mapConst, OptionSt.unwrapOrConst, OptionSt.orElseConst,
      hsome, OptionSt.unwrapUnsafe, hv]

/-- Witness for C10: const map over a present container holding 3 with
the successor function returns a present 4 and leaves the container
holding 3. -/
theorem const_access_leaves_container_untouched_instance :
    OptionSt.mapConst (OptionSt.mkSome (3 : Nat)) (fun x => x + 1)
      = (OptionSt.mkSome 3, OptionSt.mkSome 4) :=
  (const_access_leaves_container_untouched (OptionSt.mkSome 3) 3 rfl rfl
    (fun x => x + 1) 0 (fun _ => OptionSt.mkNone)).1

end Better
